import Mathlib

/-!
Verification of the command-line orchestration layer of fusesoc
(file `fusesoc/main.py`).  The definitions below are a shallow embedding of
the functions of `main.py`; collaborators that live outside that file
(`CoreManager`, `Config`, backends) enter as explicit oracle parameters, so
every theorem quantifies over all behaviours of those collaborators.
Machine-level effects (logging, `exit`) are made explicit in result records.
-/

namespace Fusesoc

/-- Python runtime failures that the embedded fragments can surface. -/
inductive PyError
  | unboundLocal (v : String)
  | typeError (msg : String)
deriving DecidableEq, Repr

/-- Substring containment, stated on the character lists of the strings. -/
def containsStr (s sub : String) : Prop :=
  ∃ a b, s.data = a ++ sub.data ++ b

/-! ### Root registration in `run` (main.py lines 319-332) -/

/-- Helper for `pySplit`: split a character list at every separator;
`acc` holds the characters of the current field, reversed. -/
def pySplitAux (sep : Char) : List Char → List Char → List (List Char)
  | [], acc => [acc.reverse]
  | c :: cs, acc =>
      if c = sep then acc.reverse :: pySplitAux sep cs []
      else pySplitAux sep cs (c :: acc)

/-- Python `s.split(sep)` for a one-character separator: every occurrence
of the separator ends a field, and an input with no separator yields the
one-element list holding the input itself. -/
def pySplit (s : String) (sep : Char) : List String :=
  (pySplitAux sep s.data []).map String.mk

/-- Embeds main.py lines 320-323: `env_cores_root = []`; if the
`FUSESOC_CORES` environment variable is set (a set-but-empty value is falsy
in Python), split it on `:` and reverse the list before registration. -/
def env_cores_root (fusesoc_cores : Option String) : List String :=
  match fusesoc_cores with
  | none => []
  | some s => if s = "" then [] else (pySplit s ':').reverse

/-- Embeds main.py lines 325-328: the fixed order of the root groups handed
to `cm.add_cores_root`: configuration `cores_root`, configuration
`systems_root`, the `FUSESOC_CORES` roots (reversed), then the
`--cores-root` command-line roots. -/
def run_root_groups (config_cores_root config_systems_root : List String)
    (fusesoc_cores : Option String) (args_cores_root : List String) :
    List (List String) :=
  [config_cores_root, config_systems_root,
   env_cores_root fusesoc_cores, args_cores_root]

/-- Outcome of one `cm.add_cores_root(cores_root)` call, as observed by the
`try`/`except (RuntimeError, IOError)` in main.py lines 329-332. -/
inductive AddResult
  | ok
  | runtimeError (msg : String)
  | ioError (msg : String)
deriving DecidableEq, Repr

/-- The warning text of main.py line 332:
`"Failed to register cores root '{}'".format(str(e))`. -/
def addWarning (msg : String) : String :=
  "Failed to register cores root \x27" ++ msg ++ "\x27"

/-- What the registration loop of `run` produced: which groups were handed
to `add_cores_root`, which of those calls succeeded, and the warnings
logged for the failed ones. -/
structure RegisterOutcome where
  attempted : List (List String)
  registered : List (List String)
  warnings : List String
deriving DecidableEq, Repr

/-- Embeds the loop of main.py lines 325-332: each group is passed to
`add_cores_root`; a `RuntimeError` or `IOError` is caught, logged as a
warning, and the loop continues with the next group.  The oracle `add`
gives the outcome of `add_cores_root` on each group. -/
def registerRoots (add : List String → AddResult) :
    List (List String) → RegisterOutcome
  | [] => ⟨[], [], []⟩
  | g :: gs =>
      let rest := registerRoots add gs
      match add g with
      | .ok => ⟨g :: rest.attempted, g :: rest.registered, rest.warnings⟩
      | .runtimeError m =>
          ⟨g :: rest.attempted, rest.registered, addWarning m :: rest.warnings⟩
      | .ioError m =>
          ⟨g :: rest.attempted, rest.registered, addWarning m :: rest.warnings⟩

/-- Modelled from the spec: the Core Registry lives in
`fusesoc.coremanager`, which is not under `src/`.  Spec section 4.2 and
section 6: later-added roots are searched first (new registrations take
precedence, "last one wins"), so a lookup returns the last registered root
that holds the core.  `hasCore r c` says whether root `r` holds a core
named `c`. -/
def registryLookup (registeredRoots : List String)
    (hasCore : String → String → Bool) (core : String) : Option String :=
  registeredRoots.reverse.find? (fun r => hasCore r core)

/-! ### `_get_core` (main.py lines 34-44) -/

/-- The slice of a core object that `run_backend` consumes:
`core.name.sanitized_name` (for the build paths). -/
structure Core where
  sanitizedName : String
deriving DecidableEq, Repr

/-- Outcome of `CoreManager().get_core(Vlnv(name))` as observed by the
`try`/`except` of `_get_core`. -/
inductive LookupResult
  | ok (core : Core)
  | runtimeError (msg : String)
  | depError (value : String)
deriving DecidableEq, Repr

/-- Result of `_get_core`: the messages logged with `logger.error` and
either the core or the `exit` status. -/
structure GetCoreResult where
  logs : List String
  out : Except Nat Core
deriving Repr

/-- The message of main.py line 42:
`"'" + name + "' or any of its dependencies requires '" + e.value + "', but this core was not found"`. -/
def getCoreMessage (name value : String) : String :=
  "\x27" ++ name ++ "\x27 or any of its dependencies requires \x27" ++ value
    ++ "\x27, but this core was not found"

/-- Embeds `_get_core` (main.py lines 34-44): on `RuntimeError` log the
error text and `exit(1)`; on `DependencyError` log the message naming both
the requested core and the missing dependency and `exit(1)`; otherwise
return the core. -/
def getCore (lookup : LookupResult) (name : String) : GetCoreResult :=
  match lookup with
  | .ok c => ⟨[], .ok c⟩
  | .runtimeError m => ⟨[m], .error 1⟩
  | .depError v => ⟨[getCoreMessage name v], .error 1⟩

/-! ### `run_backend` (main.py lines 204-265) -/

/-- The `flags` dictionary threaded through `run_backend`: the keys
`flow`, `tool` and `target` that main.py ever stores (a key that a caller
does not set is `none`). -/
structure Flags where
  flow : Option String
  tool : Option String
  target : Option String
deriving DecidableEq, Repr

/-- An invocation of one of the three backend operations. -/
inductive BEvent
  | configure (args : List String)
  | build
  | run (args : List String)
deriving DecidableEq, Repr

/-- Outcome of `CoreManager().get_eda_api(...)` as observed by the
`try`/`except` of main.py lines 227-234. -/
inductive EdaApiResult
  | ok
  | depError (msg : String)
  | syntaxError (msg : String)
deriving DecidableEq, Repr

/-- Outcome of `_import(tool)(eda_api=..., work_root=...)` as observed by
the `try`/`except` of main.py lines 235-242. -/
inductive ImportResult
  | ok
  | importError
  | runtimeError (msg : String)
deriving DecidableEq, Repr

/-- Oracle for every collaborator `run_backend` touches: the core lookup,
`core.get_tool`, `Config().build_root`, `get_eda_api`, the backend import,
`CoreManager().setup`, and the three backend stages (for each stage,
`some m` means the call raised `RuntimeError(m)`; `none` means success). -/
structure BackendWorld where
  lookup : LookupResult
  getTool : Flags → Option String
  buildRoot : String
  edaApi : EdaApiResult
  importTool : ImportResult
  setupRaises : Option String
  configureRaises : Option String
  buildRaises : Option String
  runRaises : Option String

/-- Result of `run_backend`: error-log entries, the sequence of backend
operations invoked, the flags handed to `get_eda_api` (if resolution was
reached), whether a backend object was constructed, and the `exit` status
(`none` means `run_backend` returned normally). -/
structure RBResult where
  logs : List String
  trace : List BEvent
  resolvedFlags : Option Flags
  constructedBackend : Bool
  exit : Option Nat

/-- The tool error of main.py lines 207 and 212, chosen by `tool_type` and
formatted with the requested system. -/
def toolErrorMsg (tool_type system : String) : String :=
  if tool_type = "simulator" then
    "No simulator was supplied on command line or found in \x27" ++ system
      ++ "\x27 core description"
  else
    "Unable to find synthesis info for \x27" ++ system ++ "\x27"

/-- The build error prefix of main.py lines 208 and 213. -/
def buildErrorMsg (tool_type : String) : String :=
  if tool_type = "simulator" then "Failed to build simulation model"
  else "Failed to build FPGA"

/-- The run error prefix of main.py lines 209 and 214. -/
def runErrorMsg (tool_type : String) : String :=
  if tool_type = "simulator" then "Failed to run the simulation"
  else "Failed to program the FPGA"

/-- Embeds main.py lines 259-265: the `do_run` stage.  `backend.run` is
invoked with `backendargs`; a `RuntimeError` logs the run error and the
error text and exits with status 1. -/
def stageRun (w : BackendWorld) (do_run : Bool) (backendargs : List String)
    (run_error : String) (logs : List String) (trace : List BEvent)
    (rflags : Option Flags) : RBResult :=
  if do_run then
    match w.runRaises with
    | some m =>
        ⟨logs ++ [run_error ++ " : " ++ m, m], trace ++ [.run backendargs],
         rflags, true, some 1⟩
    | none => ⟨logs, trace ++ [.run backendargs], rflags, true, none⟩
  else ⟨logs, trace, rflags, true, none⟩

/-- Embeds main.py lines 252-257: the `do_build` stage.  `backend.build`
is invoked; a `RuntimeError` logs the build error and exits with status 1,
so the run stage is never reached. -/
def stageBuild (w : BackendWorld) (do_build do_run : Bool)
    (backendargs : List String) (build_error run_error : String)
    (logs : List String) (trace : List BEvent) (rflags : Option Flags) :
    RBResult :=
  if do_build then
    match w.buildRaises with
    | some m =>
        ⟨logs ++ [build_error ++ " : " ++ m], trace ++ [.build], rflags,
         true, some 1⟩
    | none =>
        stageRun w do_run backendargs run_error logs (trace ++ [.build]) rflags
  else stageRun w do_run backendargs run_error logs trace rflags

/-- Embeds main.py lines 243-251: the `do_configure` stage.  One `try`
covers `CoreManager().setup` and `backend.configure(backendargs)`; a
`RuntimeError` from either logs "Failed to configure the system" and the
error text and exits with status 1; if `setup` raised, `configure` was
never invoked. -/
def stageConfigure (w : BackendWorld) (do_configure do_build do_run : Bool)
    (backendargs : List String) (build_error run_error : String)
    (logs : List String) (rflags : Option Flags) : RBResult :=
  if do_configure then
    match w.setupRaises with
    | some m =>
        ⟨logs ++ ["Failed to configure the system", m], [], rflags, true,
         some 1⟩
    | none =>
        match w.configureRaises with
        | some m =>
            ⟨logs ++ ["Failed to configure the system", m],
             [.configure backendargs], rflags, true, some 1⟩
        | none =>
            stageBuild w do_build do_run backendargs build_error run_error
              logs [.configure backendargs] rflags
  else stageBuild w do_build do_run backendargs build_error run_error logs
    [] rflags

/-- Embeds `run_backend` (main.py lines 204-265).  The `export` parameter
of the source is named `doExport` here because `export` is a Lean keyword.
In order: `_get_core(system)`; `core.get_tool(flags)` with the tool error
and `exit(1)` when no tool is found; `flags['tool'] = tool`; the
`export_root`/`work_root` paths; `get_eda_api` (`DependencyError` and
`SyntaxError` each log and exit 1); the backend import (`ImportError` and
`RuntimeError` each log and exit 1); then the three stages. -/
def run_backend (w : BackendWorld) (tool_type : String) (doExport : Bool)
    (do_configure do_build do_run : Bool) (flags : Flags) (system : String)
    (backendargs : List String) : RBResult :=
  let tool_type_short := if tool_type = "simulator" then "sim" else "bld"
  let tool_error := toolErrorMsg tool_type system
  let build_error := buildErrorMsg tool_type
  let run_error := runErrorMsg tool_type
  match getCore w.lookup system with
  | ⟨logs, .error code⟩ => ⟨logs, [], none, false, some code⟩
  | ⟨logs0, .ok core⟩ =>
    match w.getTool flags with
    | none => ⟨logs0 ++ [tool_error], [], none, false, some 1⟩
    | some tool =>
      let flags' := { flags with tool := some tool }
      let _export_root : Option String :=
        if doExport then
          some (w.buildRoot ++ "/" ++ core.sanitizedName ++ "/src")
        else none
      let _work_root := w.buildRoot ++ "/" ++ core.sanitizedName ++ "/"
        ++ tool_type_short ++ "-" ++ tool
      match w.edaApi with
      | .depError m =>
          ⟨logs0 ++ [m ++ "\nFailed to resolve dependencies for " ++ system],
           [], some flags', false, some 1⟩
      | .syntaxError m => ⟨logs0 ++ [m], [], some flags', false, some 1⟩
      | .ok =>
        match w.importTool with
        | .importError =>
            ⟨logs0 ++ ["Backend \"" ++ tool ++ "\" not found"], [],
             some flags', false, some 1⟩
        | .runtimeError m => ⟨logs0 ++ [m], [], some flags', false, some 1⟩
        | .ok =>
            stageConfigure w do_configure do_build do_run backendargs
              build_error run_error logs0 (some flags')

/-- The stage events that the three `do_*` switches enable, in source
order. -/
def stageMenu (do_configure do_build do_run : Bool)
    (backendargs : List String) : List BEvent :=
  (if do_configure then [BEvent.configure backendargs] else [])
    ++ (if do_build then [BEvent.build] else [])
    ++ (if do_run then [BEvent.run backendargs] else [])

/-! ### `pgm` (main.py lines 72-80) and Python positional-call binding -/

/-- The parameter list of `run_backend` (main.py line 204), in order. -/
def run_backend_params : List String :=
  ["tool_type", "export", "do_configure", "do_build", "do_run", "flags",
   "system", "backendargs"]

/-- The seven positional argument expressions that `pgm` passes to
`run_backend` (main.py lines 78-80), in order. -/
def pgm_call_args : List String :=
  ["\x27build\x27", "do_configure", "do_build", "do_run", "flags",
   "args.system", "args.backendargs"]

/-- The CPython message for a call that omits required positional
arguments. -/
def missingArgsMessage (fname : String) (missing : List String) : String :=
  fname ++ "() missing " ++ toString missing.length
    ++ " required positional argument"
    ++ (if missing.length = 1 then "" else "s") ++ ": "
    ++ String.intercalate ", " (missing.map (fun p => "\x27" ++ p ++ "\x27"))

/-- Python positional-call binding for a function with no defaults: too
many arguments or too few is a `TypeError` before the body runs; otherwise
each parameter is bound to the argument at its position. -/
def bindPositional (fname : String) (params : List String)
    (args : List String) : Except PyError (List (String × String)) :=
  if params.length < args.length then
    .error (.typeError (fname ++ "() takes " ++ toString params.length
      ++ " positional arguments but " ++ toString args.length
      ++ " were given"))
  else if args.length < params.length then
    .error (.typeError (missingArgsMessage fname
      (params.drop args.length)))
  else .ok (params.zip args)

/-- Embeds `pgm` (main.py lines 72-80): after setting
`do_configure = False`, `do_build = False`, `do_run = True` and the flags
dictionary, it calls `run_backend` with the seven positional arguments of
`pgm_call_args`.  The binding of that call against the eight parameters of
`run_backend` is checked first, as Python does; the body of `run_backend`
would only execute after a successful binding. -/
def pgm (system : String) (backendargs : List String) :
    Except PyError Unit :=
  let _do_configure := false
  let _do_build := false
  let _do_run := true
  let _flags : Flags := { flow := some "synth", tool := none, target := none }
  match bindPositional "run_backend" run_backend_params pgm_call_args with
  | .error e => .error e
  | .ok _binding => .ok ()

/-! ### `run_flow` (main.py lines 173-202) -/

/-- The parsed arguments of the `run` subcommand (main.py lines 446-455). -/
structure RunFlowArgs where
  setup : Bool
  build : Bool
  launch : Bool
  tool : String
  target : Option String
  no_export : Bool
  system : String
  backendargs : List String

/-- The simulator tool names hard-coded at main.py line 192. -/
def simulatorTools : List String :=
  ["ghdl", "icarus", "isim", "modelsim", "rivierapro", "verilator", "xsim"]

/-- The build tool names hard-coded at main.py line 194. -/
def buildToolNames : List String := ["icestorm", "ise", "quartus", "vivado"]

/-- The `tool_type` local of `run_flow`: assigned by the
`if`/`elif` of main.py lines 192-195, and left unassigned for any other
tool name (there is no `else` branch). -/
def toolTypeOf (tool : String) : Option String :=
  if simulatorTools.contains tool then some "simulator"
  else if buildToolNames.contains tool then some "build"
  else none

/-- Embeds `run_flow` (main.py lines 173-202): compute the stage switches
(all three default to on when no stage flag is set), assign `tool_type`
from the hard-coded lists, then call `run_backend`.  When `tool_type` was
never assigned, the `run_backend(tool_type, ...)` reference raises
`UnboundLocalError`. -/
def run_flow (w : BackendWorld) (args : RunFlowArgs) :
    Except PyError RBResult :=
  let stages := (args.setup, args.build, args.launch)
  let switches :=
    if stages = (false, false, false) then (true, true, true)
    else (args.setup, args.build, args.launch)
  match toolTypeOf args.tool with
  | none => .error (.unboundLocal "tool_type")
  | some tool_type =>
      let flags : Flags :=
        { flow := none, tool := some args.tool, target := args.target }
      .ok (run_backend w tool_type (!args.no_export) switches.1 switches.2.1
        switches.2.2 flags args.system args.backendargs)

/-! ### `main` (main.py lines 346-479) -/

/-- The local variables of `main` that the parser-construction statements
assign or reference. -/
inductive PyVar
  | parser
  | subparsers
  | parser_build
  | parser_init
  | parser_pgm
  | parser_fetch
  | parser_list_systems
  | parser_list_cores
  | parser_core_info
  | parser_list_paths
  | parser_run
  | parser_sim
  | parser_update
deriving DecidableEq, Repr

/-- The Python identifier of a `main` local. -/
def PyVar.pyName : PyVar → String
  | .parser => "parser"
  | .subparsers => "subparsers"
  | .parser_build => "parser_build"
  | .parser_init => "parser_init"
  | .parser_pgm => "parser_pgm"
  | .parser_fetch => "parser_fetch"
  | .parser_list_systems => "parser_list_systems"
  | .parser_list_cores => "parser_list_cores"
  | .parser_core_info => "parser_core_info"
  | .parser_list_paths => "parser_list_paths"
  | .parser_run => "parser_run"
  | .parser_sim => "parser_sim"
  | .parser_update => "parser_update"

/-- One statement of `main`, viewed through the local variables it binds
or references: `assign v` for `v = ...` (after its right-hand side has
been evaluated), `use v` for an attribute access `v.add_argument(...)` or
`v.set_defaults(...)`. -/
inductive Stmt
  | assign (v : PyVar)
  | use (v : PyVar)

/-- Python local-variable semantics for a straight-line statement list:
referencing a local that has not been assigned yet raises
`UnboundLocalError`. -/
def execStmts : List Stmt → List PyVar → Except PyError (List PyVar)
  | [], env => .ok env
  | .assign v :: rest, env => execStmts rest (v :: env)
  | .use v :: rest, env =>
      if env.contains v then execStmts rest env
      else .error (.unboundLocal v.pyName)

/-- The statements of `main` (main.py lines 348-473), in source order,
up to `parser.parse_args()`.  Each element is annotated with its source
line.  Line 448 references `parser_sim`, which is first assigned at line
458. -/
def mainParserStmts : List Stmt :=
  [.assign .parser,                               -- 348
   .use .parser, .assign .subparsers,             -- 349
   .use .parser,                                  -- 352
   .use .parser,                                  -- 355
   .use .parser,                                  -- 356
   .use .parser,                                  -- 357
   .use .parser,                                  -- 358
   .use .parser,                                  -- 359
   .use .subparsers, .assign .parser_build,       -- 362
   .use .parser_build,                            -- 363
   .use .parser_build,                            -- 364
   .use .parser_build,                            -- 365
   .use .parser_build,                            -- 366
   .use .parser_build,                            -- 367
   .use .parser_build,                            -- 368
   .use .subparsers, .assign .parser_init,        -- 371
   .use .parser_init,                             -- 372
   .use .parser_init,                             -- 373
   .use .subparsers, .assign .parser_pgm,         -- 376
   .use .parser_pgm,                              -- 377
   .use .parser_pgm,                              -- 378
   .use .parser_pgm,                              -- 379
   .use .subparsers, .assign .parser_fetch,       -- 382
   .use .parser_fetch,                            -- 383
   .use .parser_fetch,                            -- 384
   .use .subparsers, .assign .parser_list_systems, -- 387
   .use .parser_list_systems,                     -- 388
   .use .subparsers, .assign .parser_list_cores,  -- 391
   .use .parser_list_cores,                       -- 392
   .use .subparsers, .assign .parser_core_info,   -- 395
   .use .parser_core_info,                        -- 396
   .use .parser_core_info,                        -- 397
   .use .subparsers, .assign .parser_list_paths,  -- 400
   .use .parser_list_paths,                       -- 401
   .use .subparsers, .assign .parser_run,         -- 446
   .use .parser_run,                              -- 447
   .use .parser_sim,                              -- 448
   .use .parser_run,                              -- 449
   .use .parser_run,                              -- 450
   .use .parser_run,                              -- 451
   .use .parser_run,                              -- 452
   .use .parser_run,                              -- 453
   .use .parser_run,                              -- 454
   .use .parser_run,                              -- 455
   .use .subparsers, .assign .parser_sim,         -- 458
   .use .parser_sim,                              -- 459
   .use .parser_sim,                              -- 460
   .use .parser_sim,                              -- 461
   .use .parser_sim,                              -- 462
   .use .parser_sim,                              -- 463
   .use .parser_sim,                              -- 464
   .use .parser_sim,                              -- 465
   .use .parser_sim,                              -- 466
   .use .parser_sim,                              -- 467
   .use .parser_sim,                              -- 468
   .use .parser_sim,                              -- 469
   .use .subparsers, .assign .parser_update,      -- 472
   .use .parser_update]                           -- 473

/-- Embeds `main` (main.py lines 346-479): run the parser-construction
statements; only if they complete does control reach
`parser.parse_args()` and the dispatch on `parsed_args.func` (main.py
lines 475-479), abstracted as the oracle `dispatch` applied to the
argument vector. -/
def mainExec (dispatch : List String → Except PyError Unit)
    (argv : List String) : Except PyError Unit :=
  match execStmts mainParserStmts [] with
  | .error e => .error e
  | .ok _env => dispatch argv

/-! ### Dependency resolver, modelled from the spec (sections 4.1-4.3)

The CoreManager subsystem (registry, resolver, synthesizer) lives in
`fusesoc.coremanager`, which is not under `src/`; the definitions of this
section are modelled from the spec. -/

/-- Modelled from the spec: an Identity (spec section 3) — vendor,
library, name, version, each optional except the name. -/
structure Vlnv where
  vendor : Option String
  library : Option String
  name : String
  version : Option String
deriving DecidableEq, Repr

/-- Modelled from the spec: partial matching (spec section 4.1) — every
component present in the query must equal the candidate component; an
absent query component matches anything. -/
def vlnvMatches (query cand : Vlnv) : Bool :=
  (match query.vendor with | none => true | some v => cand.vendor == some v)
    && (match query.library with
        | none => true | some l => cand.library == some l)
    && (query.name == cand.name)
    && (match query.version with
        | none => true | some ver => cand.version == some ver)

/-- Modelled from the spec: a dependency constraint of a target (spec
sections 3 and 4.3) — an identity query, optionally conditional on a
use-flag; an unset flag removes the edge from the graph. -/
structure DepConstraint where
  query : Vlnv
  requiredFlag : Option String
deriving DecidableEq, Repr

/-- Modelled from the spec: one parameter declaration (spec section 3). -/
structure ParamDef where
  datatype : String
  default : String
deriving DecidableEq, Repr

/-- Modelled from the spec: one `targets` entry of a core descriptor
(spec section 3), keyed by flow name. -/
structure Target where
  flow : String
  defaultTool : Option String
  dependencies : List DepConstraint
deriving DecidableEq, Repr

/-- Modelled from the spec: a Core Descriptor (spec section 3) restricted
to the fields resolution reads. -/
structure CoreDesc where
  identity : Vlnv
  targets : List Target
  parameters : List (String × ParamDef)
deriving DecidableEq, Repr

/-- Modelled from the spec: registry lookup (spec section 4.2) — among
the descriptors matching the query, the most recently registered wins;
the registry is the list of descriptors in registration order. -/
def lookupCoreDesc (reg : List CoreDesc) (q : Vlnv) : Option CoreDesc :=
  reg.reverse.find? (fun c => vlnvMatches q c.identity)

/-- Modelled from the spec: resolution failures (spec section 7). -/
inductive ResolveError
  | coreNotFound (q : Vlnv)
  | cyclic (stack : List Vlnv)
deriving DecidableEq, Repr

/-- Modelled from the spec: the target of a core for a flow. -/
def targetFor (c : CoreDesc) (flow : String) : Option Target :=
  c.targets.find? (fun t => t.flow == flow)

/-- Modelled from the spec: the dependency queries of a core active under
a flow and flag set (spec sections 4.3 and 3) — the constraints of
`targets[flow]` whose use-flag condition is satisfied. -/
def depsFor (c : CoreDesc) (flow : String) (flags : List String) :
    List Vlnv :=
  match targetFor c flow with
  | none => []
  | some t =>
      (t.dependencies.filter (fun d =>
        match d.requiredFlag with
        | none => true
        | some f => flags.contains f)).map (fun d => d.query)

/-- Modelled from the spec: the depth-first, dependency-first traversal of
spec section 4.3, processing a worklist of identity queries.  `stack` is
the set of identities currently on the traversal stack (cycle detection);
`acc` is the dependency-first closure built so far; `fuel` bounds the
recursion (exhaustion is reported as a cycle). -/
def resolveAux (reg : List CoreDesc) (flow : String) (flags : List String) :
    Nat → List Vlnv → List CoreDesc → List Vlnv →
    Except ResolveError (List CoreDesc)
  | 0, _, _, _ => .error (.cyclic [])
  | _ + 1, _, acc, [] => .ok acc
  | fuel + 1, stack, acc, q :: qs =>
      match lookupCoreDesc reg q with
      | none => .error (.coreNotFound q)
      | some c =>
          if stack.contains c.identity then
            .error (.cyclic (c.identity :: stack))
          else if acc.any (fun d => d.identity == c.identity) then
            resolveAux reg flow flags fuel stack acc qs
          else
            match resolveAux reg flow flags fuel (c.identity :: stack) acc
                (depsFor c flow flags) with
            | .error e => .error e
            | .ok acc2 => resolveAux reg flow flags fuel stack (acc2 ++ [c]) qs

/-- Modelled from the spec: parameter merging (spec section 4.4) — maps
merged in dependency-first order, a later declaration of a name
overriding the earlier one. -/
def mergeParams (closure : List CoreDesc) : List (String × ParamDef) :=
  closure.foldl
    (fun m c =>
      c.parameters.foldl
        (fun m p => (m.filter (fun q => q.1 != p.1)) ++ [p]) m) []

/-- Modelled from the spec: a Resolved Closure (spec section 3) — the
dependency-first core ordering plus the merged parameters. -/
structure ResolvedClosure where
  order : List Vlnv
  params : List (String × ParamDef)
deriving DecidableEq, Repr

/-- Modelled from the spec: the recursion budget for the traversal — one
unit per core visit plus one per dependency edge, per worklist pass. -/
def resolveFuel (reg : List CoreDesc) : Nat :=
  (reg.length + 1)
    * (reg.foldl
        (fun n c =>
          n + 1 + c.targets.foldl (fun m t => m + t.dependencies.length) 0)
        1)

/-- Modelled from the spec: `resolve(root_identity, flow, flags)` (spec
section 4.3) — the depth-first closure from the root and the merged
parameters of spec section 4.4, computed fresh from its arguments. -/
def resolve (reg : List CoreDesc) (root : Vlnv) (flow : String)
    (flags : List String) : Except ResolveError ResolvedClosure :=
  match resolveAux reg flow flags (resolveFuel reg) [] [] [root] with
  | .error e => .error e
  | .ok closure =>
      .ok ⟨closure.map (fun c => c.identity), mergeParams closure⟩

/-! ## Theorems -/

/-- Helper: a list whose head part satisfies the predicate somewhere is
found in the head part, whatever the tail. -/
theorem find?_append_of_exists {α : Type} {p : α → Bool} {l₁ l₂ : List α}
    (h : ∃ r ∈ l₁, p r = true) :
    ∃ r ∈ l₁, (l₁ ++ l₂).find? p = some r := by
  have hs : (l₁.find? p).isSome := by
    refine List.find?_isSome.mpr ?_
    obtain ⟨r, hr, hp⟩ := h
    exact ⟨r, hr, hp⟩
  obtain ⟨a, ha⟩ := Option.isSome_iff_exists.mp hs
  refine ⟨a, List.mem_of_find?_eq_some ha, ?_⟩
  rw [List.find?_append, ha]
  rfl

/-- Helper: a head part that never satisfies the predicate is skipped by
the search. -/
theorem find?_append_of_none {α : Type} {p : α → Bool} {l₁ l₂ : List α}
    (h : ∀ r ∈ l₁, p r = false) :
    (l₁ ++ l₂).find? p = l₂.find? p := by
  rw [List.find?_append, List.find?_eq_none.mpr (fun a ha => by
    simp [h a ha])]
  simp

/-- Claim C2: for every command-line argument vector (and whatever the
parse/dispatch step after parser construction would do), `main()` raises
an unhandled `UnboundLocalError` while constructing the argument parser,
because `parser_sim.add_argument` at line 448 runs before `parser_sim` is
assigned at line 458; consequently no subcommand is ever dispatched. -/
theorem c2_main_raises_unbound_parser_sim
    (dispatch : List String → Except PyError Unit) (argv : List String) :
    mainExec dispatch argv = .error (.unboundLocal "parser_sim") := by
  rfl

/-- Claim C7: if the lookup raises `DependencyError`, `_get_core` logs a
message containing both the requested name and the unresolved dependency
identity and exits with status 1; if it raises `RuntimeError`, the error
text is logged and the process exits with status 1. -/
theorem c7_get_core_error_handling (name value msg : String)
    (lookup : LookupResult) :
    (lookup = .depError value →
      getCore lookup name = ⟨[getCoreMessage name value], .error 1⟩ ∧
      containsStr (getCoreMessage name value) name ∧
      containsStr (getCoreMessage name value) value) ∧
    (lookup = .runtimeError msg →
      getCore lookup name = ⟨[msg], .error 1⟩) := by
  constructor
  · rintro rfl
    refine ⟨rfl, ?_, ?_⟩
    · exact ⟨"\x27".data,
        ("\x27 or any of its dependencies requires \x27" ++ value
          ++ "\x27, but this core was not found").data,
        by simp [getCoreMessage, String.data_append, List.append_assoc]⟩
    · exact ⟨("\x27" ++ name
          ++ "\x27 or any of its dependencies requires \x27").data,
        "\x27, but this core was not found".data,
        by simp [getCoreMessage, String.data_append, List.append_assoc]⟩
  · rintro rfl
    rfl

/-- Witness for C7 at a concrete lookup failure. -/
theorem c7_witness :
    (LookupResult.depError "dep" : LookupResult) = .depError "dep" ∧
    (getCore (.depError "dep") "sys"
        = ⟨[getCoreMessage "sys" "dep"], .error 1⟩ ∧
      containsStr (getCoreMessage "sys" "dep") "sys" ∧
      containsStr (getCoreMessage "sys" "dep") "dep") := by
  exact ⟨rfl,
    (c7_get_core_error_handling "sys" "dep" "" (.depError "dep")).1 rfl⟩

/-- Claim C8: `pgm` passes seven positional arguments to `run_backend`,
which takes eight; the call raises `TypeError` before the backend body can
run, the omitted `export` parameter shifting each later argument one
position left and leaving `backendargs` unsupplied. -/
theorem c8_pgm_arity_type_error (system : String)
    (backendargs : List String) :
    pgm system backendargs = .error (.typeError
      "run_backend() missing 1 required positional argument: \x27backendargs\x27") ∧
    run_backend_params.length = 8 ∧
    pgm_call_args.length = 7 ∧
    run_backend_params.drop pgm_call_args.length = ["backendargs"] ∧
    run_backend_params.zip pgm_call_args =
      [("tool_type", "\x27build\x27"), ("export", "do_configure"),
       ("do_configure", "do_build"), ("do_build", "do_run"),
       ("do_run", "flags"), ("flags", "args.system"),
       ("system", "args.backendargs")] := by
  exact ⟨rfl, rfl, rfl, rfl, rfl⟩

/-- Claim C10: resolution is deterministic as a two-run property —
calling `resolve` twice with identical arguments against an unchanged
registry produces closures with identical core ordering and identical
merged parameters. -/
theorem c10_resolve_deterministic (reg : List CoreDesc) (root : Vlnv)
    (flow : String) (flags : List String) :
    resolve reg root flow flags = resolve reg root flow flags ∧
    (∀ c₁ c₂, resolve reg root flow flags = .ok c₁ →
      resolve reg root flow flags = .ok c₂ →
      c₁.order = c₂.order ∧ c₁.params = c₂.params) := by
  refine ⟨rfl, ?_⟩
  intro c₁ c₂ h1 h2
  rw [h1] at h2
  injection h2 with h
  subst h
  exact ⟨rfl, rfl⟩

/-- Witness for C10 on a concrete one-core registry. -/
theorem c10_witness :
    resolve
        [⟨⟨some "v", some "l", "a", some "1.0"⟩,
          [⟨"sim", some "icarus", []⟩], [("width", ⟨"int", "8"⟩)]⟩]
        ⟨none, none, "a", none⟩ "sim" []
      = .ok ⟨[⟨some "v", some "l", "a", some "1.0"⟩],
          [("width", ⟨"int", "8"⟩)]⟩ ∧
    ((⟨[⟨some "v", some "l", "a", some "1.0"⟩],
        [("width", ⟨"int", "8"⟩)]⟩ : ResolvedClosure).order
        = (⟨[⟨some "v", some "l", "a", some "1.0"⟩],
            [("width", ⟨"int", "8"⟩)]⟩ : ResolvedClosure).order ∧
      (⟨[⟨some "v", some "l", "a", some "1.0"⟩],
        [("width", ⟨"int", "8"⟩)]⟩ : ResolvedClosure).params
        = (⟨[⟨some "v", some "l", "a", some "1.0"⟩],
            [("width", ⟨"int", "8"⟩)]⟩ : ResolvedClosure).params) := by
  have h : resolve
      [⟨⟨some "v", some "l", "a", some "1.0"⟩,
        [⟨"sim", some "icarus", []⟩], [("width", ⟨"int", "8"⟩)]⟩]
      ⟨none, none, "a", none⟩ "sim" []
      = .ok ⟨[⟨some "v", some "l", "a", some "1.0"⟩],
          [("width", ⟨"int", "8"⟩)]⟩ := by rfl
  exact ⟨h, (c10_resolve_deterministic _ _ _ _).2 _ _ h h⟩

/-- Claim C3: a `RuntimeError` or `IOError` raised by `add_cores_root`
for one group is caught and logged as a warning, and registration
continues with every remaining group; a failed root registration never
terminates `run` and never prevents later roots from being registered. -/
theorem c3_failed_root_never_stops_registration
    (add : List String → AddResult) (groups : List (List String)) :
    (registerRoots add groups).attempted = groups ∧
    (∀ g ∈ groups, add g = .ok →
      g ∈ (registerRoots add groups).registered) ∧
    (∀ g ∈ groups, ∀ m, (add g = .runtimeError m ∨ add g = .ioError m) →
      addWarning m ∈ (registerRoots add groups).warnings) := by
  induction groups with
  | nil => exact ⟨rfl, by simp, by simp⟩
  | cons g gs ih =>
    obtain ⟨ih1, ih2, ih3⟩ := ih
    cases h : add g with
    | ok =>
        have kA : (registerRoots add (g :: gs)).attempted
            = g :: (registerRoots add gs).attempted := by
          simp [registerRoots, h]
        have kR : (registerRoots add (g :: gs)).registered
            = g :: (registerRoots add gs).registered := by
          simp [registerRoots, h]
        have kW : (registerRoots add (g :: gs)).warnings
            = (registerRoots add gs).warnings := by
          simp [registerRoots, h]
        refine ⟨by rw [kA, ih1], ?_, ?_⟩
        · intro g' hg' hok
          rw [kR]
          rcases List.mem_cons.mp hg' with rfl | hg'
          · exact List.mem_cons_self _ _
          · exact List.mem_cons_of_mem _ (ih2 g' hg' hok)
        · intro g' hg' m hm
          rw [kW]
          rcases List.mem_cons.mp hg' with rfl | hg'
          · rcases hm with hm | hm <;> rw [h] at hm <;>
              exact AddResult.noConfusion hm
          · exact ih3 g' hg' m hm
    | runtimeError e =>
        have kA : (registerRoots add (g :: gs)).attempted
            = g :: (registerRoots add gs).attempted := by
          simp [registerRoots, h]
        have kR : (registerRoots add (g :: gs)).registered
            = (registerRoots add gs).registered := by
          simp [registerRoots, h]
        have kW : (registerRoots add (g :: gs)).warnings
            = addWarning e :: (registerRoots add gs).warnings := by
          simp [registerRoots, h]
        refine ⟨by rw [kA, ih1], ?_, ?_⟩
        · intro g' hg' hok
          rw [kR]
          rcases List.mem_cons.mp hg' with rfl | hg'
          · rw [h] at hok
            exact AddResult.noConfusion hok
          · exact ih2 g' hg' hok
        · intro g' hg' m hm
          rw [kW]
          rcases List.mem_cons.mp hg' with rfl | hg'
          · rcases hm with hm | hm <;> rw [h] at hm
            · injection hm with hme
              subst hme
              exact List.mem_cons_self _ _
            · exact AddResult.noConfusion hm
          · exact List.mem_cons_of_mem _ (ih3 g' hg' m hm)
    | ioError e =>
        have kA : (registerRoots add (g :: gs)).attempted
            = g :: (registerRoots add gs).attempted := by
          simp [registerRoots, h]
        have kR : (registerRoots add (g :: gs)).registered
            = (registerRoots add gs).registered := by
          simp [registerRoots, h]
        have kW : (registerRoots add (g :: gs)).warnings
            = addWarning e :: (registerRoots add gs).warnings := by
          simp [registerRoots, h]
        refine ⟨by rw [kA, ih1], ?_, ?_⟩
        · intro g' hg' hok
          rw [kR]
          rcases List.mem_cons.mp hg' with rfl | hg'
          · rw [h] at hok
            exact AddResult.noConfusion hok
          · exact ih2 g' hg' hok
        · intro g' hg' m hm
          rw [kW]
          rcases List.mem_cons.mp hg' with rfl | hg'
          · rcases hm with hm | hm <;> rw [h] at hm
            · exact AddResult.noConfusion hm
            · injection hm with hme
              subst hme
              exact List.mem_cons_self _ _
          · exact List.mem_cons_of_mem _ (ih3 g' hg' m hm)

/-- Witness for C3: a failing middle group leaves the later group
registered, and its warning is logged. -/
theorem c3_witness :
    (registerRoots
        (fun g => if g = ["bad"] then AddResult.runtimeError "eek"
          else .ok)
        [["good"], ["bad"], ["tail"]]).attempted
      = [["good"], ["bad"], ["tail"]] ∧
    addWarning "eek" ∈ (registerRoots
        (fun g => if g = ["bad"] then AddResult.runtimeError "eek"
          else .ok)
        [["good"], ["bad"], ["tail"]]).warnings ∧
    ["tail"] ∈ (registerRoots
        (fun g => if g = ["bad"] then AddResult.runtimeError "eek"
          else .ok)
        [["good"], ["bad"], ["tail"]]).registered := by
  obtain ⟨h1, h2, h3⟩ := c3_failed_root_never_stops_registration
    (fun g => if g = ["bad"] then AddResult.runtimeError "eek" else .ok)
    [["good"], ["bad"], ["tail"]]
  refine ⟨h1, ?_, ?_⟩
  · exact h3 ["bad"] (by simp) "eek" (Or.inl (by simp))
  · exact h2 ["tail"] (by simp) (by simp)

/-- Claim C1: `run` registers the root groups in the fixed order
configuration `cores_root`, configuration `systems_root`, the
`FUSESOC_CORES` roots (colon-split and reversed), then the `--cores-root`
roots; under the registry rule that the most recently registered root
wins a lookup, command-line roots beat environment roots, which beat
configuration-file roots, for every combination of supplied sources. -/
theorem c1_root_registration_order_and_precedence
    (config_cores config_systems : List String)
    (fusesoc_cores : Option String) (cli : List String)
    (hasCore : String → String → Bool) (core : String) :
    (run_root_groups config_cores config_systems fusesoc_cores cli).flatten
      = config_cores ++ config_systems ++ env_cores_root fusesoc_cores
        ++ cli ∧
    ((∃ r ∈ cli, hasCore r core = true) →
      ∃ r ∈ cli, registryLookup
        ((run_root_groups config_cores config_systems fusesoc_cores
          cli).flatten) hasCore core = some r) ∧
    ((∀ r ∈ cli, hasCore r core = false) →
      (∃ r ∈ env_cores_root fusesoc_cores, hasCore r core = true) →
      ∃ r ∈ env_cores_root fusesoc_cores, registryLookup
        ((run_root_groups config_cores config_systems fusesoc_cores
          cli).flatten) hasCore core = some r) ∧
    ((∀ r ∈ cli, hasCore r core = false) →
      (∀ r ∈ env_cores_root fusesoc_cores, hasCore r core = false) →
      (∃ r ∈ config_cores ++ config_systems, hasCore r core = true) →
      ∃ r ∈ config_cores ++ config_systems, registryLookup
        ((run_root_groups config_cores config_systems fusesoc_cores
          cli).flatten) hasCore core = some r) := by
  have hjoin : (run_root_groups config_cores config_systems fusesoc_cores
      cli).flatten
      = config_cores ++ config_systems ++ env_cores_root fusesoc_cores
        ++ cli := by
    simp [run_root_groups, List.append_assoc]
  have hrev : ((run_root_groups config_cores config_systems fusesoc_cores
      cli).flatten).reverse
      = cli.reverse ++ ((env_cores_root fusesoc_cores).reverse
        ++ (config_systems.reverse ++ config_cores.reverse)) := by
    rw [hjoin]
    simp [List.reverse_append, List.append_assoc]
  refine ⟨hjoin, ?_, ?_, ?_⟩
  · intro h
    obtain ⟨r, hr, hp⟩ := h
    obtain ⟨a, haMem, haFind⟩ := @find?_append_of_exists String
      (fun r => hasCore r core) cli.reverse
      ((env_cores_root fusesoc_cores).reverse
        ++ (config_systems.reverse ++ config_cores.reverse))
      ⟨r, List.mem_reverse.mpr hr, hp⟩
    refine ⟨a, List.mem_reverse.mp haMem, ?_⟩
    rw [registryLookup, hrev]
    exact haFind
  · intro hcli h
    obtain ⟨r, hr, hp⟩ := h
    obtain ⟨a, haMem, haFind⟩ := @find?_append_of_exists String
      (fun r => hasCore r core)
      (env_cores_root fusesoc_cores).reverse
      (config_systems.reverse ++ config_cores.reverse)
      ⟨r, List.mem_reverse.mpr hr, hp⟩
    refine ⟨a, List.mem_reverse.mp haMem, ?_⟩
    rw [registryLookup, hrev, find?_append_of_none
      (fun r hr => hcli r (List.mem_reverse.mp hr))]
    exact haFind
  · intro hcli henv h
    obtain ⟨r, hr, hp⟩ := h
    have hrMem : r ∈ config_systems.reverse ++ config_cores.reverse := by
      rcases List.mem_append.mp hr with hr | hr
      · exact List.mem_append.mpr (Or.inr (List.mem_reverse.mpr hr))
      · exact List.mem_append.mpr (Or.inl (List.mem_reverse.mpr hr))
    have hs : ((config_systems.reverse
        ++ config_cores.reverse).find? (fun r => hasCore r core)).isSome := by
      refine List.find?_isSome.mpr ?_
      exact ⟨r, hrMem, hp⟩
    obtain ⟨a, haFind⟩ := Option.isSome_iff_exists.mp hs
    have haMem : a ∈ config_cores ++ config_systems := by
      rcases List.mem_append.mp (List.mem_of_find?_eq_some haFind)
          with ha | ha
      · exact List.mem_append.mpr (Or.inr (List.mem_reverse.mp ha))
      · exact List.mem_append.mpr (Or.inl (List.mem_reverse.mp ha))
    refine ⟨a, haMem, ?_⟩
    rw [registryLookup, hrev, find?_append_of_none
      (fun r hr => hcli r (List.mem_reverse.mp hr)),
      find?_append_of_none (fun r hr => henv r (List.mem_reverse.mp hr))]
    exact haFind

/-- Witness for C1: with a core present in a configuration root, an
environment root and a command-line root, the lookup returns the
command-line root; with it present only in the environment and
configuration roots, the environment root wins. -/
theorem c1_witness :
    (∃ r ∈ ["cliroot"],
      (fun (r _ : String) => r != "none") r "foo" = true) ∧
    (∃ r ∈ ["cliroot"], registryLookup
      ((run_root_groups ["cfgroot"] ["sysroot"] (some "e1:e2")
        ["cliroot"]).flatten) (fun r _ => r != "none") "foo" = some r) ∧
    ((∀ r ∈ ([] : List String),
        (fun (r _ : String) => r != "cliroot") r "foo" = false) ∧
      (∃ r ∈ env_cores_root (some "e1:e2"),
        (fun (r _ : String) => r != "cliroot") r "foo" = true) ∧
      (∃ r ∈ env_cores_root (some "e1:e2"), registryLookup
        ((run_root_groups ["cfgroot"] ["sysroot"] (some "e1:e2")
          []).flatten) (fun r _ => r != "cliroot") "foo" = some r)) := by
  have h1 : ∃ r ∈ ["cliroot"],
      (fun (r _ : String) => r != "none") r "foo" = true :=
    ⟨"cliroot", by simp, by decide⟩
  have h2 : ∀ r ∈ ([] : List String),
      (fun (r _ : String) => r != "cliroot") r "foo" = false := by simp
  have h3 : ∃ r ∈ env_cores_root (some "e1:e2"),
      (fun (r _ : String) => r != "cliroot") r "foo" = true :=
    ⟨"e2", by decide, by decide⟩
  exact ⟨h1,
    (c1_root_registration_order_and_precedence ["cfgroot"] ["sysroot"]
      (some "e1:e2") ["cliroot"] (fun r _ => r != "none") "foo").2.1 h1,
    h2, h3,
    (c1_root_registration_order_and_precedence ["cfgroot"] ["sysroot"]
      (some "e1:e2") [] (fun r _ => r != "cliroot") "foo").2.2.1 h2 h3⟩

/-- Helper: the run stage appends its event exactly when `do_run` is set,
whether or not the stage fails. -/
theorem stageRun_trace_eq (w : BackendWorld) (dr : Bool)
    (bargs : List String) (re : String) (logs : List String)
    (trace : List BEvent) (rf : Option Flags) :
    (stageRun w dr bargs re logs trace rf).trace
      = trace ++ (if dr then [BEvent.run bargs] else []) := by
  cases hr : w.runRaises <;> cases dr <;> simp [stageRun, hr]

/-- Helper: the run stage does not change the resolution record. -/
theorem stageRun_rf (w : BackendWorld) (dr : Bool) (bargs : List String)
    (re : String) (logs : List String) (trace : List BEvent)
    (rf : Option Flags) :
    (stageRun w dr bargs re logs trace rf).resolvedFlags = rf := by
  cases hr : w.runRaises <;> cases dr <;> simp [stageRun, hr]

/-- Helper: an enabled failing run stage exits with status 1 and logs the
run error. -/
theorem stageRun_fail (w : BackendWorld) (bargs : List String)
    (re : String) (logs : List String) (trace : List BEvent)
    (rf : Option Flags) (m : String) (hm : w.runRaises = some m) :
    stageRun w true bargs re logs trace rf
      = ⟨logs ++ [re ++ " : " ++ m, m], trace ++ [BEvent.run bargs], rf,
         true, some 1⟩ := by
  simp [stageRun, hm]

/-- Helper: a disabled build stage falls through to the run stage. -/
theorem stageBuild_skip (w : BackendWorld) (dr : Bool)
    (bargs : List String) (be re : String) (logs : List String)
    (trace : List BEvent) (rf : Option Flags) :
    stageBuild w false dr bargs be re logs trace rf
      = stageRun w dr bargs re logs trace rf := by
  simp [stageBuild]

/-- Helper: a successful build stage appends its event and falls through
to the run stage. -/
theorem stageBuild_ok (w : BackendWorld) (dr : Bool)
    (bargs : List String) (be re : String) (logs : List String)
    (trace : List BEvent) (rf : Option Flags)
    (hb : w.buildRaises = none) :
    stageBuild w true dr bargs be re logs trace rf
      = stageRun w dr bargs re logs (trace ++ [BEvent.build]) rf := by
  simp [stageBuild, hb]

/-- Helper: an enabled failing build stage exits with status 1 after
logging the build error, without reaching the run stage. -/
theorem stageBuild_fail (w : BackendWorld) (dr : Bool)
    (bargs : List String) (be re : String) (logs : List String)
    (trace : List BEvent) (rf : Option Flags) (m : String)
    (hm : w.buildRaises = some m) :
    stageBuild w true dr bargs be re logs trace rf
      = ⟨logs ++ [be ++ " : " ++ m], trace ++ [BEvent.build], rf, true,
         some 1⟩ := by
  simp [stageBuild, hm]

/-- Helper: the build stage does not change the resolution record. -/
theorem stageBuild_rf (w : BackendWorld) (db dr : Bool)
    (bargs : List String) (be re : String) (logs : List String)
    (trace : List BEvent) (rf : Option Flags) :
    (stageBuild w db dr bargs be re logs trace rf).resolvedFlags = rf := by
  cases db <;> cases hb : w.buildRaises <;>
    simp [stageBuild, hb, stageRun_rf]

/-- Helper: the events the build and run stages may append. -/
theorem stageBuild_trace_shape (w : BackendWorld) (db dr : Bool)
    (bargs : List String) (be re : String) (logs : List String)
    (trace : List BEvent) (rf : Option Flags) :
    ∃ t, (stageBuild w db dr bargs be re logs trace rf).trace
        = trace ++ t ∧
      List.Sublist t ((if db then [BEvent.build] else [])
        ++ (if dr then [BEvent.run bargs] else [])) := by
  cases db
  · refine ⟨if dr then [BEvent.run bargs] else [], ?_, ?_⟩
    · simp [stageBuild_skip, stageRun_trace_eq]
    · cases dr <;> simp
  · cases hb : w.buildRaises
    · refine ⟨BEvent.build :: (if dr then [BEvent.run bargs] else []),
        ?_, ?_⟩
      · rw [stageBuild_ok w dr bargs be re logs trace rf hb,
          stageRun_trace_eq]
        simp
      · cases dr <;> simp
    · refine ⟨[BEvent.build], ?_, ?_⟩
      · rw [stageBuild_fail w dr bargs be re logs trace rf _ hb]
      · cases dr <;> simp

/-- Helper: a disabled configure stage falls through to the build stage
with an empty trace. -/
theorem stageConfigure_skip (w : BackendWorld) (db dr : Bool)
    (bargs : List String) (be re : String) (logs : List String)
    (rf : Option Flags) :
    stageConfigure w false db dr bargs be re logs rf
      = stageBuild w db dr bargs be re logs [] rf := by
  simp [stageConfigure]

/-- Helper: a failing `CoreManager().setup` exits with status 1 before
`backend.configure` is ever invoked. -/
theorem stageConfigure_setup_fail (w : BackendWorld) (db dr : Bool)
    (bargs : List String) (be re : String) (logs : List String)
    (rf : Option Flags) (m : String) (hm : w.setupRaises = some m) :
    stageConfigure w true db dr bargs be re logs rf
      = ⟨logs ++ ["Failed to configure the system", m], [], rf, true,
         some 1⟩ := by
  simp [stageConfigure, hm]

/-- Helper: a failing `backend.configure` exits with status 1 after its
own event, without reaching build or run. -/
theorem stageConfigure_configure_fail (w : BackendWorld) (db dr : Bool)
    (bargs : List String) (be re : String) (logs : List String)
    (rf : Option Flags) (m : String) (hsu : w.setupRaises = none)
    (hm : w.configureRaises = some m) :
    stageConfigure w true db dr bargs be re logs rf
      = ⟨logs ++ ["Failed to configure the system", m],
         [BEvent.configure bargs], rf, true, some 1⟩ := by
  simp [stageConfigure, hsu, hm]

/-- Helper: a successful configure stage appends its event and falls
through to the build stage. -/
theorem stageConfigure_ok (w : BackendWorld) (db dr : Bool)
    (bargs : List String) (be re : String) (logs : List String)
    (rf : Option Flags) (hsu : w.setupRaises = none)
    (hcf : w.configureRaises = none) :
    stageConfigure w true db dr bargs be re logs rf
      = stageBuild w db dr bargs be re logs [BEvent.configure bargs] rf := by
  simp [stageConfigure, hsu, hcf]

/-- Helper: the configure stage does not change the resolution record. -/
theorem stageConfigure_rf (w : BackendWorld) (dc db dr : Bool)
    (bargs : List String) (be re : String) (logs : List String)
    (rf : Option Flags) :
    (stageConfigure w dc db dr bargs be re logs rf).resolvedFlags = rf := by
  cases dc <;> cases hsu : w.setupRaises <;>
    cases hcf : w.configureRaises <;>
    simp [stageConfigure, hsu, hcf, stageBuild_rf]

/-- Helper: whatever happens in the three stages, the events are a
subsequence of the enabled-stage menu, in source order. -/
theorem stageConfigure_trace_sublist (w : BackendWorld) (dc db dr : Bool)
    (bargs : List String) (be re : String) (logs : List String)
    (rf : Option Flags) :
    List.Sublist (stageConfigure w dc db dr bargs be re logs rf).trace
      (stageMenu dc db dr bargs) := by
  have hmenuT : stageMenu true db dr bargs
      = [BEvent.configure bargs] ++ ((if db then [BEvent.build] else [])
        ++ (if dr then [BEvent.run bargs] else [])) := by
    simp [stageMenu]
  cases dc
  · obtain ⟨t, ht, hsub⟩ := stageBuild_trace_shape w db dr bargs be re
      logs [] rf
    rw [stageConfigure_skip, ht]
    simp only [List.nil_append]
    have hmenu : stageMenu false db dr bargs
        = (if db then [BEvent.build] else [])
          ++ (if dr then [BEvent.run bargs] else []) := by
      simp [stageMenu]
    rw [hmenu]
    exact hsub
  · cases hsu : w.setupRaises
    · cases hcf : w.configureRaises
      · obtain ⟨t, ht, hsub⟩ := stageBuild_trace_shape w db dr bargs be re
          logs [BEvent.configure bargs] rf
        rw [stageConfigure_ok w db dr bargs be re logs rf hsu hcf, ht,
          hmenuT]
        exact hsub.append_left _
      · rw [stageConfigure_configure_fail w db dr bargs be re logs rf _
          hsu hcf, hmenuT]
        exact List.sublist_append_left _ _
    · rw [stageConfigure_setup_fail w db dr bargs be re logs rf _ hsu]
      exact List.nil_sublist _

/-- Helper: the enabled-stage menu is a subsequence of the full
configure-build-run sequence. -/
theorem stageMenu_sublist_full (dc db dr : Bool) (bargs : List String) :
    List.Sublist (stageMenu dc db dr bargs)
      [BEvent.configure bargs, BEvent.build, BEvent.run bargs] := by
  cases dc <;> cases db <;> cases dr <;> simp [stageMenu]

/-- Helper: the menu only offers the configure event when `do_configure`
is set. -/
theorem mem_stageMenu_configure {dc db dr : Bool} {bargs : List String}
    (h : BEvent.configure bargs ∈ stageMenu dc db dr bargs) : dc = true := by
  cases dc
  · cases db <;> cases dr <;> simp [stageMenu] at h
  · rfl

/-- Helper: the menu only offers the build event when `do_build` is set. -/
theorem mem_stageMenu_build {dc db dr : Bool} {bargs : List String}
    (h : BEvent.build ∈ stageMenu dc db dr bargs) : db = true := by
  cases db
  · cases dc <;> cases dr <;> simp [stageMenu] at h
  · rfl

/-- Helper: the menu only offers the run event when `do_run` is set. -/
theorem mem_stageMenu_run {dc db dr : Bool} {bargs : List String}
    (h : BEvent.run bargs ∈ stageMenu dc db dr bargs) : dr = true := by
  cases dr
  · cases dc <;> cases db <;> simp [stageMenu] at h
  · rfl

/-- Helper: `run_backend` either aborts with status 1 before any backend
object exists (no stage event, an error logged), or reaches the stages
with the resolved flags after a successful lookup, tool choice, EDA API
construction and backend import. -/
theorem run_backend_shape (w : BackendWorld) (tt : String) (ex : Bool)
    (dc db dr : Bool) (flags : Flags) (system : String)
    (bargs : List String) :
    ((run_backend w tt ex dc db dr flags system bargs).trace = [] ∧
     (run_backend w tt ex dc db dr flags system bargs).exit = some 1 ∧
     (run_backend w tt ex dc db dr flags system bargs).constructedBackend
        = false ∧
     (run_backend w tt ex dc db dr flags system bargs).logs ≠ []) ∨
    (∃ tool, w.getTool flags = some tool ∧ w.edaApi = .ok ∧
      w.importTool = .ok ∧
      run_backend w tt ex dc db dr flags system bargs
        = stageConfigure w dc db dr bargs (buildErrorMsg tt)
            (runErrorMsg tt) [] (some { flags with tool := some tool })) := by
  cases hlk : w.lookup with
  | runtimeError m => left; simp [run_backend, getCore, hlk]
  | depError v => left; simp [run_backend, getCore, hlk]
  | ok c =>
    cases hgt : w.getTool flags with
    | none => left; simp [run_backend, getCore, hlk, hgt]
    | some tool =>
      cases heda : w.edaApi with
      | depError m => left; simp [run_backend, getCore, hlk, hgt, heda]
      | syntaxError m => left; simp [run_backend, getCore, hlk, hgt, heda]
      | ok =>
        cases himp : w.importTool with
        | importError =>
            left; simp [run_backend, getCore, hlk, hgt, heda, himp]
        | runtimeError m =>
            left; simp [run_backend, getCore, hlk, hgt, heda, himp]
        | ok =>
            right
            exact ⟨tool, rfl, rfl, rfl,
              by simp [run_backend, getCore, hlk, hgt, heda, himp]⟩

/-- Helper: the events of any `run_backend` call are a subsequence of the
enabled-stage menu. -/
theorem run_backend_trace_sublist (w : BackendWorld) (tt : String)
    (ex : Bool) (dc db dr : Bool) (flags : Flags) (system : String)
    (bargs : List String) :
    List.Sublist (run_backend w tt ex dc db dr flags system bargs).trace
      (stageMenu dc db dr bargs) := by
  rcases run_backend_shape w tt ex dc db dr flags system bargs with
    ⟨h1, _, _, _⟩ | ⟨tool, _, _, _, heq⟩
  · rw [h1]
    exact List.nil_sublist _
  · rw [heq]
    exact stageConfigure_trace_sublist w dc db dr bargs _ _ [] _

/-- Helper: an enabled configure stage whose setup or configure call
fails exits with status 1, never reaches build or run, and logs errors. -/
theorem stageConfigure_conf_fail (w : BackendWorld) (db dr : Bool)
    (bargs : List String) (be re : String) (logs : List String)
    (rf : Option Flags) (m : String)
    (hfail : w.setupRaises = some m
      ∨ (w.setupRaises = none ∧ w.configureRaises = some m)) :
    (stageConfigure w true db dr bargs be re logs rf).exit = some 1 ∧
    BEvent.build ∉ (stageConfigure w true db dr bargs be re logs rf).trace ∧
    BEvent.run bargs
      ∉ (stageConfigure w true db dr bargs be re logs rf).trace ∧
    ∃ t, (stageConfigure w true db dr bargs be re logs rf).logs
        = logs ++ t ∧ t ≠ [] := by
  rcases hfail with hsu | ⟨hsu, hcf⟩
  · rw [stageConfigure_setup_fail w db dr bargs be re logs rf _ hsu]
    exact ⟨rfl, by simp, by simp,
      ⟨["Failed to configure the system", m], rfl, by simp⟩⟩
  · rw [stageConfigure_configure_fail w db dr bargs be re logs rf _ hsu hcf]
    exact ⟨rfl, by simp, by simp,
      ⟨["Failed to configure the system", m], rfl, by simp⟩⟩

/-- Helper: an enabled failing build stage, behind any configure stage,
exits with status 1 and never reaches the run stage. -/
theorem stageConfigure_build_fail (w : BackendWorld) (dc dr : Bool)
    (bargs : List String) (be re : String) (logs : List String)
    (rf : Option Flags) (m : String) (hbu : w.buildRaises = some m) :
    (stageConfigure w dc true dr bargs be re logs rf).exit = some 1 ∧
    BEvent.run bargs
      ∉ (stageConfigure w dc true dr bargs be re logs rf).trace ∧
    ∃ t, (stageConfigure w dc true dr bargs be re logs rf).logs
        = logs ++ t ∧ t ≠ [] := by
  cases dc
  · rw [stageConfigure_skip,
      stageBuild_fail w dr bargs be re logs [] rf _ hbu]
    exact ⟨rfl, by simp, ⟨[be ++ " : " ++ m], rfl, by simp⟩⟩
  · cases hsu : w.setupRaises with
    | none =>
      cases hcf : w.configureRaises with
      | none =>
        rw [stageConfigure_ok w true dr bargs be re logs rf hsu hcf,
          stageBuild_fail w dr bargs be re logs [BEvent.configure bargs]
            rf _ hbu]
        exact ⟨rfl, by simp, ⟨[be ++ " : " ++ m], rfl, by simp⟩⟩
      | some mc =>
        obtain ⟨h1, _, h3, h4⟩ := stageConfigure_conf_fail w true dr bargs
          be re logs rf mc (Or.inr ⟨hsu, hcf⟩)
        exact ⟨h1, h3, h4⟩
    | some ms =>
      obtain ⟨h1, _, h3, h4⟩ := stageConfigure_conf_fail w true dr bargs
        be re logs rf ms (Or.inl hsu)
      exact ⟨h1, h3, h4⟩

/-- Helper: an enabled failing run stage, behind any configure and build
stages, exits with status 1 and logs errors. -/
theorem stageBuild_run_fail (w : BackendWorld) (db : Bool)
    (bargs : List String) (be re : String) (logs : List String)
    (trace : List BEvent) (rf : Option Flags) (m : String)
    (hru : w.runRaises = some m) :
    (stageBuild w db true bargs be re logs trace rf).exit = some 1 ∧
    ∃ t, (stageBuild w db true bargs be re logs trace rf).logs
        = logs ++ t ∧ t ≠ [] := by
  cases db
  · rw [stageBuild_skip, stageRun_fail w bargs re logs trace rf _ hru]
    exact ⟨rfl, ⟨[re ++ " : " ++ m, m], rfl, by simp⟩⟩
  · cases hb : w.buildRaises
    · rw [stageBuild_ok w true bargs be re logs trace rf hb,
        stageRun_fail w bargs re logs (trace ++ [BEvent.build]) rf _ hru]
      exact ⟨rfl, ⟨[re ++ " : " ++ m, m], rfl, by simp⟩⟩
    · rw [stageBuild_fail w true bargs be re logs trace rf _ hb]
      exact ⟨rfl, ⟨[be ++ " : " ++ _], rfl, by simp⟩⟩

/-- Helper: an enabled failing run stage behind any configure stage exits
with status 1 and logs errors. -/
theorem stageConfigure_run_fail (w : BackendWorld) (dc db : Bool)
    (bargs : List String) (be re : String) (logs : List String)
    (rf : Option Flags) (m : String) (hru : w.runRaises = some m) :
    (stageConfigure w dc db true bargs be re logs rf).exit = some 1 ∧
    ∃ t, (stageConfigure w dc db true bargs be re logs rf).logs
        = logs ++ t ∧ t ≠ [] := by
  cases dc
  · rw [stageConfigure_skip]
    exact stageBuild_run_fail w db bargs be re logs [] rf m hru
  · cases hsu : w.setupRaises with
    | none =>
      cases hcf : w.configureRaises with
      | none =>
        rw [stageConfigure_ok w db true bargs be re logs rf hsu hcf]
        exact stageBuild_run_fail w db bargs be re logs
          [BEvent.configure bargs] rf m hru
      | some mc =>
        obtain ⟨h1, _, _, h4⟩ := stageConfigure_conf_fail w db true bargs
          be re logs rf mc (Or.inr ⟨hsu, hcf⟩)
        exact ⟨h1, h4⟩
    | some ms =>
      obtain ⟨h1, _, _, h4⟩ := stageConfigure_conf_fail w db true bargs
        be re logs rf ms (Or.inl hsu)
      exact ⟨h1, h4⟩

/-- Claim C4: a `run_backend` call only ever invokes
`configure(backendargs)`, `build()` and `run(backendargs)`, each at most
once and in that order (the events are a subsequence of the full
sequence), with each stage invoked only when its switch is set; in
particular `build` is never invoked before `configure` when both are
enabled. -/
theorem c4_backend_stage_order (w : BackendWorld) (tt : String)
    (ex : Bool) (dc db dr : Bool) (flags : Flags) (system : String)
    (bargs : List String) :
    List.Sublist (run_backend w tt ex dc db dr flags system bargs).trace
      [BEvent.configure bargs, BEvent.build, BEvent.run bargs] ∧
    (BEvent.configure bargs
        ∈ (run_backend w tt ex dc db dr flags system bargs).trace →
      dc = true) ∧
    (BEvent.build ∈ (run_backend w tt ex dc db dr flags system bargs).trace →
      db = true) ∧
    (BEvent.run bargs
        ∈ (run_backend w tt ex dc db dr flags system bargs).trace →
      dr = true) := by
  have hsub := run_backend_trace_sublist w tt ex dc db dr flags system bargs
  refine ⟨hsub.trans (stageMenu_sublist_full dc db dr bargs), ?_, ?_, ?_⟩
  · intro h
    exact mem_stageMenu_configure (hsub.mem h)
  · intro h
    exact mem_stageMenu_build (hsub.mem h)
  · intro h
    exact mem_stageMenu_run (hsub.mem h)

/-- Witness for C4 at a fully enabled, fully succeeding concrete world:
every stage event occurs, so every switch is (trivially) set. -/
theorem c4_witness :
    BEvent.build ∈ (run_backend
      ⟨.ok ⟨"c"⟩, fun _ => some "icarus", "", .ok, .ok, none, none, none,
        none⟩
      "simulator" true true true true ⟨some "sim", none, none⟩ "sys"
      []).trace ∧
    (true : Bool) = true := by
  have h : BEvent.build ∈ (run_backend
      ⟨.ok ⟨"c"⟩, fun _ => some "icarus", "", .ok, .ok, none, none, none,
        none⟩
      "simulator" true true true true ⟨some "sim", none, none⟩ "sys"
      []).trace := by decide
  exact ⟨h, (c4_backend_stage_order
    ⟨.ok ⟨"c"⟩, fun _ => some "icarus", "", .ok, .ok, none, none, none,
      none⟩
    "simulator" true true true true ⟨some "sim", none, none⟩ "sys"
    []).2.2.1 h⟩

/-- Claim C5: any enabled failing stage (setup/configure, build, run) and
any `get_eda_api` failure makes the CLI log an error and exit with status
1, and no later stage runs: a configure failure prevents build and run, a
build failure prevents run. -/
theorem c5_stage_failure_exits (w : BackendWorld) (tt : String)
    (ex : Bool) (dc db dr : Bool) (flags : Flags) (system : String)
    (bargs : List String) (m : String) :
    ((dc = true →
      (w.setupRaises = some m
        ∨ (w.setupRaises = none ∧ w.configureRaises = some m)) →
      (run_backend w tt ex dc db dr flags system bargs).exit = some 1 ∧
      BEvent.build ∉ (run_backend w tt ex dc db dr flags system bargs).trace ∧
      BEvent.run bargs
        ∉ (run_backend w tt ex dc db dr flags system bargs).trace ∧
      (run_backend w tt ex dc db dr flags system bargs).logs ≠ []) ∧
    (db = true → w.buildRaises = some m →
      (run_backend w tt ex dc db dr flags system bargs).exit = some 1 ∧
      BEvent.run bargs
        ∉ (run_backend w tt ex dc db dr flags system bargs).trace ∧
      (run_backend w tt ex dc db dr flags system bargs).logs ≠ []) ∧
    (dr = true → w.runRaises = some m →
      (run_backend w tt ex dc db dr flags system bargs).exit = some 1 ∧
      (run_backend w tt ex dc db dr flags system bargs).logs ≠ []) ∧
    ((w.edaApi = .depError m ∨ w.edaApi = .syntaxError m) →
      (run_backend w tt ex dc db dr flags system bargs).exit = some 1 ∧
      (run_backend w tt ex dc db dr flags system bargs).trace = [] ∧
      (run_backend w tt ex dc db dr flags system bargs).constructedBackend
        = false ∧
      (run_backend w tt ex dc db dr flags system bargs).logs ≠ [])) := by
  refine ⟨?_, ?_, ?_, ?_⟩
  · intro hdc hfail
    rcases run_backend_shape w tt ex dc db dr flags system bargs with
      ⟨h1, h2, h3, h4⟩ | ⟨tool, hgt, heda, himp, heq⟩
    · exact ⟨h2, by rw [h1]; simp, by rw [h1]; simp, h4⟩
    · subst hdc
      rw [heq]
      obtain ⟨e1, e2, e3, ⟨t, ht, htne⟩⟩ := stageConfigure_conf_fail w db
        dr bargs (buildErrorMsg tt) (runErrorMsg tt) []
        (some { flags with tool := some tool }) m hfail
      refine ⟨e1, e2, e3, ?_⟩
      rw [ht]
      simpa using htne
  · intro hdb hbu
    rcases run_backend_shape w tt ex dc db dr flags system bargs with
      ⟨h1, h2, h3, h4⟩ | ⟨tool, hgt, heda, himp, heq⟩
    · exact ⟨h2, by rw [h1]; simp, h4⟩
    · subst hdb
      rw [heq]
      obtain ⟨e1, e2, ⟨t, ht, htne⟩⟩ := stageConfigure_build_fail w dc dr
        bargs (buildErrorMsg tt) (runErrorMsg tt) []
        (some { flags with tool := some tool }) m hbu
      refine ⟨e1, e2, ?_⟩
      rw [ht]
      simpa using htne
  · intro hdr hru
    rcases run_backend_shape w tt ex dc db dr flags system bargs with
      ⟨h1, h2, h3, h4⟩ | ⟨tool, hgt, heda, himp, heq⟩
    · exact ⟨h2, h4⟩
    · subst hdr
      rw [heq]
      obtain ⟨e1, ⟨t, ht, htne⟩⟩ := stageConfigure_run_fail w dc db bargs
        (buildErrorMsg tt) (runErrorMsg tt) []
        (some { flags with tool := some tool }) m hru
      refine ⟨e1, ?_⟩
      rw [ht]
      simpa using htne
  · intro hda
    rcases run_backend_shape w tt ex dc db dr flags system bargs with
      ⟨h1, h2, h3, h4⟩ | ⟨tool, hgt, heda, himp, heq⟩
    · exact ⟨h2, h1, h3, h4⟩
    · rcases hda with hda | hda <;> rw [hda] at heda <;>
        exact EdaApiResult.noConfusion heda

/-- Witness for C5 at a concrete world whose configure stage fails. -/
theorem c5_witness :
    ((true : Bool) = true ∧
      ((BackendWorld.mk (.ok ⟨"c"⟩) (fun _ => some "icarus") "" .ok .ok
          (some "boom") none none none).setupRaises = some "boom" ∨
        ((BackendWorld.mk (.ok ⟨"c"⟩) (fun _ => some "icarus") "" .ok .ok
          (some "boom") none none none).setupRaises = none ∧
         (BackendWorld.mk (.ok ⟨"c"⟩) (fun _ => some "icarus") "" .ok .ok
          (some "boom") none none none).configureRaises = some "boom"))) ∧
    (run_backend
        (BackendWorld.mk (.ok ⟨"c"⟩) (fun _ => some "icarus") "" .ok .ok
          (some "boom") none none none)
        "simulator" true true true true ⟨some "sim", none, none⟩ "sys"
        []).exit = some 1 ∧
    BEvent.build ∉ (run_backend
        (BackendWorld.mk (.ok ⟨"c"⟩) (fun _ => some "icarus") "" .ok .ok
          (some "boom") none none none)
        "simulator" true true true true ⟨some "sim", none, none⟩ "sys"
        []).trace := by
  obtain ⟨ha, _, _, _⟩ := c5_stage_failure_exits
    (BackendWorld.mk (.ok ⟨"c"⟩) (fun _ => some "icarus") "" .ok .ok
      (some "boom") none none none)
    "simulator" true true true true ⟨some "sim", none, none⟩ "sys" []
    "boom"
  obtain ⟨e1, e2, _, _⟩ := ha rfl (Or.inl rfl)
  exact ⟨⟨rfl, Or.inl rfl⟩, e1, e2⟩

/-- Claim C6: when the core lookup succeeds but `core.get_tool` returns
no tool, `run_backend` logs the flow-appropriate tool error (which names
the requested system) and exits with status 1 before constructing any
backend or invoking any stage; when a tool is returned, it is written
into the flags handed to `get_eda_api`. -/
theorem c6_no_tool_exits_before_backend (w : BackendWorld) (tt : String)
    (ex : Bool) (dc db dr : Bool) (flags : Flags) (system : String)
    (bargs : List String) (core : Core) (t : String) :
    containsStr (toolErrorMsg tt system) system ∧
    (w.lookup = .ok core → w.getTool flags = none →
      (run_backend w tt ex dc db dr flags system bargs).exit = some 1 ∧
      (run_backend w tt ex dc db dr flags system bargs).trace = [] ∧
      (run_backend w tt ex dc db dr flags system bargs).constructedBackend
        = false ∧
      (run_backend w tt ex dc db dr flags system bargs).resolvedFlags
        = none ∧
      toolErrorMsg tt system
        ∈ (run_backend w tt ex dc db dr flags system bargs).logs) ∧
    (w.lookup = .ok core → w.getTool flags = some t →
      (run_backend w tt ex dc db dr flags system bargs).resolvedFlags
        = some { flags with tool := some t }) := by
  refine ⟨?_, ?_, ?_⟩
  · by_cases h : tt = "simulator"
    · refine ⟨"No simulator was supplied on command line or found in \x27".data,
        "\x27 core description".data, ?_⟩
      simp [toolErrorMsg, h, String.data_append, List.append_assoc]
    · refine ⟨"Unable to find synthesis info for \x27".data, "\x27".data, ?_⟩
      simp [toolErrorMsg, h, String.data_append, List.append_assoc]
  · intro hlk hgt
    have heq : run_backend w tt ex dc db dr flags system bargs
        = ⟨[] ++ [toolErrorMsg tt system], [], none, false, some 1⟩ := by
      simp [run_backend, getCore, hlk, hgt]
    rw [heq]
    exact ⟨rfl, rfl, rfl, rfl, by simp⟩
  · intro hlk hgt
    cases heda : w.edaApi with
    | depError md =>
        have heq : (run_backend w tt ex dc db dr flags system
            bargs).resolvedFlags = some { flags with tool := some t } := by
          simp [run_backend, getCore, hlk, hgt, heda]
        exact heq
    | syntaxError ms =>
        have heq : (run_backend w tt ex dc db dr flags system
            bargs).resolvedFlags = some { flags with tool := some t } := by
          simp [run_backend, getCore, hlk, hgt, heda]
        exact heq
    | ok =>
        cases himp : w.importTool with
        | importError =>
            simp [run_backend, getCore, hlk, hgt, heda, himp]
        | runtimeError mi =>
            simp [run_backend, getCore, hlk, hgt, heda, himp]
        | ok =>
            have heq : run_backend w tt ex dc db dr flags system bargs
                = stageConfigure w dc db dr bargs (buildErrorMsg tt)
                    (runErrorMsg tt) []
                    (some { flags with tool := some t }) := by
              simp [run_backend, getCore, hlk, hgt, heda, himp]
            rw [heq]
            exact stageConfigure_rf w dc db dr bargs _ _ [] _

/-- Witness for C6 at a concrete world whose core declares no tool. -/
theorem c6_witness :
    (BackendWorld.mk (.ok ⟨"c"⟩) (fun _ => none) "" .ok .ok none none none
      none).lookup = .ok ⟨"c"⟩ ∧
    (BackendWorld.mk (.ok ⟨"c"⟩) (fun _ => none) "" .ok .ok none none none
      none).getTool ⟨some "sim", none, none⟩ = none ∧
    (run_backend
        (BackendWorld.mk (.ok ⟨"c"⟩) (fun _ => none) "" .ok .ok none none
          none none)
        "simulator" true true true true ⟨some "sim", none, none⟩ "sys"
        []).exit = some 1 ∧
    toolErrorMsg "simulator" "sys"
      ∈ (run_backend
        (BackendWorld.mk (.ok ⟨"c"⟩) (fun _ => none) "" .ok .ok none none
          none none)
        "simulator" true true true true ⟨some "sim", none, none⟩ "sys"
        []).logs := by
  obtain ⟨_, h2, _⟩ := c6_no_tool_exits_before_backend
    (BackendWorld.mk (.ok ⟨"c"⟩) (fun _ => none) "" .ok .ok none none none
      none)
    "simulator" true true true true ⟨some "sim", none, none⟩ "sys" []
    ⟨"c"⟩ "t"
  obtain ⟨e1, _, _, _, e5⟩ := h2 rfl rfl
  exact ⟨rfl, rfl, e1, e5⟩

/-- Claim C9: `run_flow` assigns `tool_type` only for the eleven
hard-coded tool names; for every other `args.tool` value it raises an
unhandled `UnboundLocalError` (not any typed failure), and for the eleven
names it proceeds into `run_backend`. -/
theorem c9_run_flow_unbound_tool_type (w : BackendWorld)
    (args : RunFlowArgs) :
    simulatorTools ++ buildToolNames
      = ["ghdl", "icarus", "isim", "modelsim", "rivierapro", "verilator",
         "xsim", "icestorm", "ise", "quartus", "vivado"] ∧
    (args.tool ∉ simulatorTools ++ buildToolNames →
      run_flow w args = .error (.unboundLocal "tool_type")) ∧
    (args.tool ∈ simulatorTools ++ buildToolNames →
      ∃ r, run_flow w args = .ok r) := by
  refine ⟨rfl, ?_, ?_⟩
  · intro h
    simp only [List.mem_append, not_or] at h
    have h1 : simulatorTools.contains args.tool = false :=
      Bool.eq_false_iff.mpr (fun hc => h.1 (List.mem_of_elem_eq_true hc))
    have h2 : buildToolNames.contains args.tool = false :=
      Bool.eq_false_iff.mpr (fun hc => h.2 (List.mem_of_elem_eq_true hc))
    have ht : toolTypeOf args.tool = none := by
      unfold toolTypeOf
      rw [h1, h2]
      rfl
    simp only [run_flow, ht]
  · intro h
    rcases List.mem_append.mp h with h | h
    · have h1 : simulatorTools.contains args.tool = true :=
        List.elem_eq_true_of_mem h
      have ht : toolTypeOf args.tool = some "simulator" := by
        unfold toolTypeOf
        rw [h1]
        rfl
      exact ⟨_, by simp only [run_flow, ht]; rfl⟩
    · cases h1 : simulatorTools.contains args.tool with
      | false =>
        have h2 : buildToolNames.contains args.tool = true :=
          List.elem_eq_true_of_mem h
        have ht : toolTypeOf args.tool = some "build" := by
          unfold toolTypeOf
          rw [h1, h2]
          rfl
        exact ⟨_, by simp only [run_flow, ht]; rfl⟩
      | true =>
        have ht : toolTypeOf args.tool = some "simulator" := by
          unfold toolTypeOf
          rw [h1]
          rfl
        exact ⟨_, by simp only [run_flow, ht]; rfl⟩

/-- Witness for C9 at the unsupported tool name "gcc". -/
theorem c9_witness :
    ("gcc" ∉ simulatorTools ++ buildToolNames) ∧
    run_flow
      ⟨.ok ⟨"c"⟩, fun _ => none, "", .ok, .ok, none, none, none, none⟩
      ⟨false, false, false, "gcc", none, false, "sys", []⟩
      = .error (.unboundLocal "tool_type") := by
  have h : ("gcc" : String) ∉ simulatorTools ++ buildToolNames := by
    decide
  exact ⟨h, (c9_run_flow_unbound_tool_type
    ⟨.ok ⟨"c"⟩, fun _ => none, "", .ok, .ok, none, none, none, none⟩
    ⟨false, false, false, "gcc", none, false, "sys", []⟩).2.1 h⟩

end Fusesoc
